import Mathlib

/-!
Shallow embedding of the `cardano-c` wallet / transaction-builder interface
of input-output-hk/rust-byron-cardano.

The repository ships the C header `cardano.h`, its unit tests, and an
example; the implementation sits behind an FFI boundary.  The definitions
below therefore model the operations from the specification's description
of each function, pinned down by the header's documented contracts and the
behavior asserted by the unit tests.  External collaborators (the signing
primitive, the hashing primitive, base58 text encoding, the byte-exact
serializer) are kept opaque, exactly as the specification designates them.
-/

/-- Protocol-defined upper bound on any coin value, as fixed in
`test_transaction.c` (`const uint64_t MAX_COIN = 45000000000000000`). -/
def MAX_COIN : Nat := 45000000000000000

/-- The error enumeration `cardano_transaction_error_t` of `cardano.h`. -/
inductive cardano_transaction_error_t
  | SUCCESS
  | NO_OUTPUT
  | NO_INPUT
  | SIGNATURE_MISMATCH
  | OVER_LIMIT
  | SIGNATURES_EXCEEDED
  | COIN_OUT_OF_BOUNDS
deriving DecidableEq, Repr

/-- The error enumeration `cardano_bip39_error_t` of `cardano.h`. -/
inductive cardano_bip39_error_t
  | SUCCESS
  | INVALID_MNEMONIC
  | INVALID_CHECKSUM
  | INVALID_WORD_COUNT
deriving DecidableEq, Repr

/-- Modelled from the spec: a wallet owns the seed material derived from its
entropy and password; the key-stretching function is an external hashing
collaborator, kept opaque by recording its inputs. -/
structure cardano_wallet where
  entropy : List Nat
  password : List Nat
deriving DecidableEq, Repr

/-- Modelled from the spec: an account holds a human-readable alias (a lookup
convenience, not part of the derivation path) and the derivation index. -/
structure cardano_account where
  wallet : cardano_wallet
  accountAlias : String
  index : Nat
deriving DecidableEq, Repr

/-- Modelled from the spec: an address is the deterministic image of the
extended public key at derivation path
root -> account (hardened) -> chain -> address index; the key-derivation and
hashing primitives are external collaborators, so the address records its
full derivation path. -/
structure cardano_address where
  wallet : cardano_wallet
  accountIndex : Nat
  internalChain : Bool
  addressIndex : Nat
deriving DecidableEq, Repr

/-- A `cardano_txoptr`: a 32-byte transaction id plus a 32-bit output index
(`cardano_transaction_output_ptr_new`). -/
structure cardano_txoptr where
  txid : List Nat
  index : Nat
deriving DecidableEq, Repr

/-- A `cardano_txoutput`: an address plus a 64-bit coin value
(`cardano_transaction_output_new`). -/
structure cardano_txoutput where
  addr : cardano_address
  value : Nat
deriving DecidableEq, Repr

/-- Modelled from the spec: the transaction builder is a mutable accumulator
of `(TxOutPtr, value)` inputs and `TxOutput` outputs.  A change address set
with `cardano_transaction_builder_add_change_addr` is materialized
immediately as an ordinary output, so the state carries no extra field. -/
structure cardano_transaction_builder where
  inputs : List (cardano_txoptr × Nat)
  outputs : List cardano_txoutput
deriving DecidableEq, Repr

/-- `cardano_transaction_builder_new`: the builder starts empty. -/
def cardano_transaction_builder_new : cardano_transaction_builder :=
  { inputs := [], outputs := [] }

/-- Modelled from the spec: `addInput(txo, value)` rejects `value > MAX_COIN`
with `CoinOutOfBounds` and otherwise appends the input.  The C function
mutates the builder and returns an error code; the model returns the code
paired with the new builder state. -/
def cardano_transaction_builder_add_input
    (tb : cardano_transaction_builder) (txo : cardano_txoptr) (value : Nat) :
    cardano_transaction_error_t × cardano_transaction_builder :=
  if MAX_COIN < value then
    (.COIN_OUT_OF_BOUNDS, tb)
  else
    (.SUCCESS, { tb with inputs := tb.inputs ++ [(txo, value)] })

/-- Modelled from the spec: `addOutput(output)` has no bound failure path at
this call; the bound is checked at total-computation time. -/
def cardano_transaction_builder_add_output
    (tb : cardano_transaction_builder) (txo : cardano_txoutput) :
    cardano_transaction_builder :=
  { tb with outputs := tb.outputs ++ [txo] }

/-- Modelled from the spec: coin values are summed with an eager bound check,
failing with `CoinOutOfBounds` at the first partial sum past `MAX_COIN`
rather than wrapping. -/
def coinSumAux : Nat → List Nat → Except cardano_transaction_error_t Nat
  | acc, [] => .ok acc
  | acc, v :: vs =>
      if MAX_COIN < acc + v then .error .COIN_OUT_OF_BOUNDS
      else coinSumAux (acc + v) vs

/-- `cardano_transaction_builder_get_input_total`: sums the stored input
values with the eager `MAX_COIN` bound check. -/
def cardano_transaction_builder_get_input_total
    (tb : cardano_transaction_builder) : Except cardano_transaction_error_t Nat :=
  coinSumAux 0 (tb.inputs.map Prod.snd)

/-- `cardano_transaction_builder_get_output_total`: sums the stored output
values with the eager `MAX_COIN` bound check. -/
def cardano_transaction_builder_get_output_total
    (tb : cardano_transaction_builder) : Except cardano_transaction_error_t Nat :=
  coinSumAux 0 (tb.outputs.map cardano_txoutput.value)

/-- Modelled from the spec: the fee is linear, `a + b * size_estimate`, where
`size_estimate` is a function of the input and output counts and the
coefficients are injected protocol parameters. -/
structure FeeAlgorithm where
  a : Nat
  b : Nat
  sizeEstimate : Nat → Nat → Nat

/-- `cardano_transaction_builder_fee` under an injected linear fee algorithm. -/
def cardano_transaction_builder_fee
    (alg : FeeAlgorithm) (tb : cardano_transaction_builder) : Nat :=
  alg.a + alg.b * alg.sizeEstimate tb.inputs.length tb.outputs.length

/-- The sign enumeration `difference_type_t` of `cardano.h`. -/
inductive difference_type_t
  | DIFF_POSITIVE
  | DIFF_NEGATIVE
  | DIFF_ZERO
deriving DecidableEq, Repr

/-- The struct `cardano_transaction_coin_diff_t` of `cardano.h`. -/
structure cardano_transaction_coin_diff_t where
  sign : difference_type_t
  value : Nat
deriving DecidableEq, Repr

/-- Modelled from the spec: the differential of an input total against an
output total, by the obvious three-way comparison. -/
def diffCompare (i o : Nat) : cardano_transaction_coin_diff_t :=
  if o < i then { sign := .DIFF_POSITIVE, value := i - o }
  else if i < o then { sign := .DIFF_NEGATIVE, value := o - i }
  else { sign := .DIFF_ZERO, value := 0 }

/-- `cardano_transaction_builder_balance`: the differential between the
inputs and the outputs including the fee, failing with `CoinOutOfBounds`
when a total is too big. -/
def cardano_transaction_builder_balance
    (alg : FeeAlgorithm) (tb : cardano_transaction_builder) :
    Except cardano_transaction_error_t cardano_transaction_coin_diff_t :=
  match cardano_transaction_builder_get_input_total tb with
  | .error e => .error e
  | .ok inTot =>
    match cardano_transaction_builder_get_output_total tb with
    | .error e => .error e
    | .ok outTot =>
      let total := outTot + cardano_transaction_builder_fee alg tb
      if MAX_COIN < total then .error .COIN_OUT_OF_BOUNDS
      else .ok (diffCompare inTot total)

/-- `cardano_transaction_builder_balance_without_fees`: the differential
between the inputs and the outputs excluding the fee. -/
def cardano_transaction_builder_balance_without_fees
    (tb : cardano_transaction_builder) :
    Except cardano_transaction_error_t cardano_transaction_coin_diff_t :=
  match cardano_transaction_builder_get_input_total tb with
  | .error e => .error e
  | .ok inTot =>
    match cardano_transaction_builder_get_output_total tb with
    | .error e => .error e
    | .ok outTot => .ok (diffCompare inTot outTot)

/-- An immutable transaction: the finalized snapshot of input pointers and
outputs. -/
structure cardano_transaction where
  inputs : List cardano_txoptr
  outputs : List cardano_txoutput
deriving DecidableEq, Repr

/-- Modelled from the spec: `finalize()` fails with `NoInput` on an empty
input list, with `NoOutput` on an empty output list, and otherwise snapshots
the current inputs and outputs into an immutable transaction. -/
def cardano_transaction_builder_finalize
    (tb : cardano_transaction_builder) :
    Except cardano_transaction_error_t cardano_transaction :=
  if tb.inputs.isEmpty then .error .NO_INPUT
  else if tb.outputs.isEmpty then .error .NO_OUTPUT
  else .ok { inputs := tb.inputs.map Prod.fst, outputs := tb.outputs }

/-- Modelled from the spec: a witness records the inputs handed to the
external signing collaborator, namely the 96-byte private key bytes, the
protocol magic and the 32-byte transaction id. -/
structure TxWitness where
  xprv : List Nat
  protocolMagic : Nat
  txid : List Nat
deriving DecidableEq, Repr

/-- The signing workspace `cardano_transaction_finalized`: an immutable
transaction plus the ordered list of witnesses added so far. -/
structure cardano_transaction_finalized where
  tx : cardano_transaction
  witnesses : List TxWitness
deriving DecidableEq, Repr

/-- `cardano_transaction_finalized_new`: a fresh workspace has no witnesses. -/
def cardano_transaction_finalized_new
    (tx : cardano_transaction) : cardano_transaction_finalized :=
  { tx := tx, witnesses := [] }

/-- Modelled from the spec: `addWitness` signs for the next not-yet-witnessed
input in input order and appends the witness; once every input already has a
witness, a further call fails with `SignaturesExceeded` and leaves the
witness list unchanged.  The C function mutates the workspace and returns an
error code; the model returns the code paired with the new state. -/
def cardano_transaction_finalized_add_witness
    (tf : cardano_transaction_finalized)
    (xprv : List Nat) (protocolMagic : Nat) (txid : List Nat) :
    cardano_transaction_error_t × cardano_transaction_finalized :=
  if tf.tx.inputs.length ≤ tf.witnesses.length then
    (.SIGNATURES_EXCEEDED, tf)
  else
    (.SUCCESS,
      { tf with witnesses := tf.witnesses ++ [⟨xprv, protocolMagic, txid⟩] })

/-- A signed transaction: the immutable transaction plus its complete
witness list. -/
structure cardano_signed_transaction where
  tx : cardano_transaction
  witnesses : List TxWitness
deriving DecidableEq, Repr

/-- Modelled from the spec: `output()` fails with `SignatureMismatch` whenever
the number of witnesses differs from the number of inputs, and otherwise
emits the signed transaction.  The `OverLimit` serialized-size check depends
on the byte-exact serializer, which the spec designates as an external
collaborator out of scope; the modelled fragment covers transactions within
the size limit. -/
def cardano_transaction_finalized_output
    (tf : cardano_transaction_finalized) :
    Except cardano_transaction_error_t cardano_signed_transaction :=
  if tf.witnesses.length ≠ tf.tx.inputs.length then .error .SIGNATURE_MISMATCH
  else .ok { tx := tf.tx, witnesses := tf.witnesses }

/-- Modelled from the spec: the table sending a mnemonic word count to the
entropy byte length it encodes.  The header documents the accepted word
counts as 9, 12, 15, 18, 21 or 24 (`cardano.h`, `cardano_entropy_from_random`
and `cardano_entropy_from_english_mnemonics`), so the table includes the
9-word / 12-byte variant that the spec's open questions note. -/
def wordCountToEntropyBytes (n : Nat) : Option Nat :=
  if n = 9 then some 12
  else if n = 12 then some 16
  else if n = 15 then some 20
  else if n = 18 then some 24
  else if n = 21 then some 28
  else if n = 24 then some 32
  else none

/-- Modelled from the spec: `entropyFromRandom` draws `entropy_bits/8` bytes
from the injected random source; the source is modelled as the stream of the
bytes returned by its successive calls. -/
def cardano_entropy_from_random
    (numberOfWords : Nat) (randomGenerator : Nat → Nat) :
    Except cardano_bip39_error_t (List Nat) :=
  match wordCountToEntropyBytes numberOfWords with
  | none => .error .INVALID_WORD_COUNT
  | some nBytes => .ok ((List.range nBytes).map randomGenerator)

/-- Resolve every word through the dictionary, failing on the first word that
is not in the dictionary. -/
def lookupAll (lookup : String → Option Nat) : List String → Option (List Nat)
  | [] => some []
  | w :: ws =>
    match lookup w with
    | none => none
    | some i =>
      match lookupAll lookup ws with
      | none => none
      | some is => some (i :: is)

/-- The `w` bits of `v` below bit `w`, most significant first. -/
def natToBits : Nat → Nat → List Bool
  | 0, _ => []
  | w + 1, v => (v / 2 ^ w % 2 == 1) :: natToBits w v

/-- Read a big-endian bit string as a number. -/
def bitsToNat (bs : List Bool) : Nat :=
  bs.foldl (fun a b => 2 * a + (if b then 1 else 0)) 0

/-- Group a bit string into bytes, most significant bit first, with an
explicit fuel argument for termination. -/
def bitsToBytesAux : Nat → List Bool → List Nat
  | 0, _ => []
  | _ + 1, [] => []
  | n + 1, b :: bs => bitsToNat ((b :: bs).take 8) :: bitsToBytesAux n (bs.drop 7)

/-- Group a bit string into bytes, most significant bit first. -/
def bitsToBytes (bs : List Bool) : List Nat :=
  bitsToBytesAux bs.length bs

/-- Modelled from the spec: `entropyFromMnemonic`.  Every word must resolve
to an 11-bit dictionary index and the word count must be in the accepted
table, else `InvalidMnemonic`; the embedded checksum bits must equal the
high-order bits of a hash of the payload entropy, else `InvalidChecksum`.
The dictionary and the hashing primitive are external collaborators,
injected as `lookup` and `hashChecksum` (the latter takes the payload bits
and the number of checksum bits and returns the expected checksum value). -/
def cardano_entropy_from_english_mnemonics
    (lookup : String → Option Nat) (hashChecksum : List Bool → Nat → Nat)
    (words : List String) :
    Except cardano_bip39_error_t (List Nat) :=
  match lookupAll lookup words with
  | none => .error .INVALID_MNEMONIC
  | some idxs =>
    match wordCountToEntropyBytes words.length with
    | none => .error .INVALID_MNEMONIC
    | some nBytes =>
      let bits := (idxs.map (natToBits 11)).flatten
      let payload := bits.take (8 * nBytes)
      let cs := bits.drop (8 * nBytes)
      if bitsToNat cs = hashChecksum payload cs.length
      then .ok (bitsToBytes payload)
      else .error .INVALID_CHECKSUM

/-- Modelled from the spec and the tests: `walletNew` validates the entropy
length and derives the seed from entropy and password (the key-stretching
collaborator is opaque, so the wallet records its inputs).  The header
documents the entropy sizes 16, 20, 24, 28 and 32, but the repository's own
test `valid_entropy_size_returns_success` (`test.c`) additionally asserts
success for a 12-byte entropy, the 9-word variant noted in the spec's open
questions, so the accepted set is 12, 16, 20, 24, 28 and 32 bytes.  The C
function reports failure through `CARDANO_RESULT_ERROR`, modelled as
`none`. -/
def cardano_wallet_new (entropy password : List Nat) : Option cardano_wallet :=
  if entropy.length = 12 ∨ entropy.length = 16 ∨ entropy.length = 20 ∨
     entropy.length = 24 ∨ entropy.length = 28 ∨ entropy.length = 32 then
    some { entropy := entropy, password := password }
  else none

/-- `cardano_account_create`: never fails, checks neither alias nor index
uniqueness. -/
def cardano_account_create
    (wallet : cardano_wallet) (anAlias : String) (index : Nat) : cardano_account :=
  { wallet := wallet, accountAlias := anAlias, index := index }

/-- `cardano_account_generate_addresses`: the addresses at consecutive
indices on the requested chain, derived deterministically from the account's
wallet and derivation index. -/
def cardano_account_generate_addresses
    (account : cardano_account) (internalChain : Bool)
    (fromIndex count : Nat) : List cardano_address :=
  (List.range count).map (fun i =>
    { wallet := account.wallet
      accountIndex := account.index
      internalChain := internalChain
      addressIndex := fromIndex + i })

/-- Modelled from the spec: the base58 text form of an address.  The base58
codec is an external collaborator required to be a bijection over valid
addresses, so text is modelled as either the encoding of a valid address or
malformed text. -/
inductive AddressText
  | encoded (a : cardano_address)
  | malformed (s : String)
deriving DecidableEq, Repr

/-- `cardano_address_export_base58`: total on valid addresses. -/
def cardano_address_export_base58 (a : cardano_address) : AddressText :=
  .encoded a

/-- `cardano_address_import_base58`: rejects malformed text, inverts
`cardano_address_export_base58` on valid addresses. -/
def cardano_address_import_base58 : AddressText → Option cardano_address
  | .encoded a => some a
  | .malformed _ => none

/-- `cardano_address_is_valid`: per the header it returns 0 on success and
nonzero on failure, equivalent to `cardano_address_import_base58`
succeeding. -/
def cardano_address_is_valid (t : AddressText) : Int :=
  match cardano_address_import_base58 t with
  | some _ => 0
  | none => 1

/-- Size of the byte representation of a `cardano_xprv` (`cardano.h`). -/
def XPRV_SIZE : Nat := 96

/-- An extended private key: a 64-byte extended ed25519 secret key followed
by a 32-byte chain code. -/
structure cardano_xprv where
  extendedSecret : List Nat
  chainCode : List Nat
deriving DecidableEq, Repr

/-- Modelled from the spec: the validity constraints of the encoded extended
secret scalar, the ed25519 bit-clearing and bit-setting pattern: the three
lowest bits of byte 0 are clear, the third-highest bit of byte 31 is set and
the highest bit of byte 31 is clear.  This matches the repository's test
vectors in `test_xprv.c`: the buffer that is all zero except byte 31 equal
to 0b01000000 is valid, the all-zero buffer is not. -/
def xprvScalarValid (bytes : List Nat) : Bool :=
  bytes.length == 96 &&
  bytes.headD 0 % 8 == 0 &&
  bytes.getD 31 0 / 64 % 2 == 1 &&
  bytes.getD 31 0 / 128 % 2 == 0

/-- Modelled from the spec: `fromBytes` validates the scalar constraints and
splits the buffer into the 64-byte extended secret and the 32-byte chain
code; invalid encodings fail (the C function returns
`CARDANO_RESULT_ERROR`, modelled as `none`) rather than being silently
fixed up. -/
def cardano_xprv_from_bytes (bytes : List Nat) : Option cardano_xprv :=
  if xprvScalarValid bytes then
    some { extendedSecret := bytes.take 64, chainCode := bytes.drop 64 }
  else none

/-- `cardano_xprv_to_bytes`: the 64 secret bytes followed by the 32 chain
code bytes. -/
def cardano_xprv_to_bytes (xprv : cardano_xprv) : List Nat :=
  xprv.extendedSecret ++ xprv.chainCode

/-! Shared fixtures mirroring the constants of the unit tests. -/

/-- The wallet of the test fixtures: entropy bytes 0..15, password given as
its byte values. -/
def testWallet : cardano_wallet :=
  { entropy := List.range 16, password := [97, 98, 99] }

/-- The 32-byte all-zero transaction id of the test fixtures. -/
def testTxid : List Nat := List.replicate 32 0

/-- The input pointer of the test fixtures. -/
def testTxoptr : cardano_txoptr := { txid := testTxid, index := 1 }

/-- A concrete address on the external chain of account 0. -/
def testAddress : cardano_address :=
  { wallet := testWallet, accountIndex := 0, internalChain := false, addressIndex := 0 }

/-- The output of the test fixtures, value 1000. -/
def testOutput : cardano_txoutput := { addr := testAddress, value := 1000 }

/-! Helper lemmas. -/

/-- The checked coin sum equals the plain sum exactly when no bound is
exceeded; since the values are nonnegative, the eager partial-sum check
fires exactly when the full sum passes `MAX_COIN`. -/
theorem coinSumAux_eq (vs : List Nat) :
    ∀ acc, acc ≤ MAX_COIN →
      coinSumAux acc vs =
        if MAX_COIN < acc + vs.sum then .error .COIN_OUT_OF_BOUNDS
        else .ok (acc + vs.sum) := by
  induction vs with
  | nil =>
    intro acc h
    simp [coinSumAux, Nat.not_lt.mpr h]
  | cons v vs ih =>
    intro acc h
    by_cases hc : MAX_COIN < acc + v
    · have hbig : MAX_COIN < acc + (v :: vs).sum := by
        simp only [List.sum_cons]
        omega
      rw [coinSumAux, if_pos hc, if_pos hbig]
    · push_neg at hc
      rw [coinSumAux, if_neg (Nat.not_lt.mpr hc), ih (acc + v) hc]
      simp [List.sum_cons, Nat.add_assoc]

/-- The checked coin sum from zero. -/
theorem coinSum_spec (vs : List Nat) :
    coinSumAux 0 vs =
      if MAX_COIN < vs.sum then .error .COIN_OUT_OF_BOUNDS else .ok vs.sum := by
  simpa using coinSumAux_eq vs 0 (Nat.zero_le _)

/-- The input total in terms of the plain sum of the stored input values. -/
theorem get_input_total_spec (tb : cardano_transaction_builder) :
    cardano_transaction_builder_get_input_total tb =
      if MAX_COIN < (tb.inputs.map Prod.snd).sum then .error .COIN_OUT_OF_BOUNDS
      else .ok (tb.inputs.map Prod.snd).sum :=
  coinSum_spec _

/-- The output total in terms of the plain sum of the stored output values. -/
theorem get_output_total_spec (tb : cardano_transaction_builder) :
    cardano_transaction_builder_get_output_total tb =
      if MAX_COIN < (tb.outputs.map cardano_txoutput.value).sum then
        .error .COIN_OUT_OF_BOUNDS
      else .ok (tb.outputs.map cardano_txoutput.value).sum :=
  coinSum_spec _

/-- C10: for a freshly created builder with no inputs and no outputs,
`getInputTotal` and `getOutputTotal` both succeed and return 0. -/
theorem claim_C10_fresh_builder_totals_are_zero :
    cardano_transaction_builder_get_input_total cardano_transaction_builder_new =
      .ok 0 ∧
    cardano_transaction_builder_get_output_total cardano_transaction_builder_new =
      .ok 0 :=
  ⟨rfl, rfl⟩

/-- C8: `finalize` on a builder with an empty input list fails with `NoInput`,
on a builder with inputs but an empty output list fails with `NoOutput`, and
on a builder with at least one input and at least one output succeeds,
producing the immutable transaction snapshot of the current inputs and
outputs. -/
theorem claim_C8_finalize_checks_then_snapshots :
    ∀ tb : cardano_transaction_builder,
      (tb.inputs = [] → cardano_transaction_builder_finalize tb = .error .NO_INPUT) ∧
      (tb.inputs ≠ [] → tb.outputs = [] →
        cardano_transaction_builder_finalize tb = .error .NO_OUTPUT) ∧
      (tb.inputs ≠ [] → tb.outputs ≠ [] →
        cardano_transaction_builder_finalize tb =
          .ok { inputs := tb.inputs.map Prod.fst, outputs := tb.outputs }) := by
  intro tb
  refine ⟨fun h => ?_, fun h h' => ?_, fun h h' => ?_⟩ <;>
    simp [cardano_transaction_builder_finalize, List.isEmpty_iff, *]

/-- Witness for C8 at the three concrete builders of the unit tests. -/
theorem claim_C8_finalize_checks_then_snapshots_witness :
    cardano_transaction_builder_finalize { inputs := [], outputs := [testOutput] } =
      .error .NO_INPUT ∧
    cardano_transaction_builder_finalize
        { inputs := [(testTxoptr, 1000)], outputs := [] } = .error .NO_OUTPUT ∧
    cardano_transaction_builder_finalize
        { inputs := [(testTxoptr, 1000)], outputs := [testOutput] } =
      .ok { inputs := [testTxoptr], outputs := [testOutput] } := by
  refine ⟨(claim_C8_finalize_checks_then_snapshots _).1 rfl,
    (claim_C8_finalize_checks_then_snapshots _).2.1 (by simp) rfl, ?_⟩
  have h := (claim_C8_finalize_checks_then_snapshots
    { inputs := [(testTxoptr, 1000)], outputs := [testOutput] }).2.2 (by simp) (by simp)
  simpa using h

/-- C1: on a finalized transaction, every `addWitness` call made while fewer
witnesses than inputs are present succeeds and appends exactly one witness;
once the witness count has reached the input count, a further call fails with
`SignaturesExceeded` and leaves the state unchanged; and `output()` fails
with `SignatureMismatch` whenever the number of witnesses differs from the
number of inputs. -/
theorem claim_C1_witness_protocol :
    ∀ (tf : cardano_transaction_finalized) (xprv : List Nat)
      (protocolMagic : Nat) (txid : List Nat),
      (tf.witnesses.length < tf.tx.inputs.length →
        cardano_transaction_finalized_add_witness tf xprv protocolMagic txid =
          (.SUCCESS,
            { tf with witnesses := tf.witnesses ++ [⟨xprv, protocolMagic, txid⟩] })) ∧
      (tf.tx.inputs.length ≤ tf.witnesses.length →
        cardano_transaction_finalized_add_witness tf xprv protocolMagic txid =
          (.SIGNATURES_EXCEEDED, tf)) ∧
      (tf.witnesses.length ≠ tf.tx.inputs.length →
        cardano_transaction_finalized_output tf = .error .SIGNATURE_MISMATCH) := by
  intro tf xprv protocolMagic txid
  refine ⟨fun h => ?_, fun h => ?_, fun h => ?_⟩
  · rw [cardano_transaction_finalized_add_witness, if_neg (Nat.not_le.mpr h)]
  · rw [cardano_transaction_finalized_add_witness, if_pos h]
  · rw [cardano_transaction_finalized_output, if_pos h]

/-- Witness for C1 on the one-input transaction of the unit tests: the first
`addWitness` succeeds and appends the witness, the second fails with
`SignaturesExceeded` without changing the state, and `output()` on the
unsigned state fails with `SignatureMismatch`. -/
theorem claim_C1_witness_protocol_witness :
    cardano_transaction_finalized_add_witness
        { tx := { inputs := [testTxoptr], outputs := [testOutput] }, witnesses := [] }
        (List.replicate 96 0) 1 testTxid =
      (.SUCCESS,
        { tx := { inputs := [testTxoptr], outputs := [testOutput] },
          witnesses := [⟨List.replicate 96 0, 1, testTxid⟩] }) ∧
    cardano_transaction_finalized_add_witness
        { tx := { inputs := [testTxoptr], outputs := [testOutput] },
          witnesses := [⟨List.replicate 96 0, 1, testTxid⟩] }
        (List.replicate 96 0) 1 testTxid =
      (.SIGNATURES_EXCEEDED,
        { tx := { inputs := [testTxoptr], outputs := [testOutput] },
          witnesses := [⟨List.replicate 96 0, 1, testTxid⟩] }) ∧
    cardano_transaction_finalized_output
        { tx := { inputs := [testTxoptr], outputs := [testOutput] }, witnesses := [] } =
      .error .SIGNATURE_MISMATCH :=
  ⟨(claim_C1_witness_protocol
      { tx := { inputs := [testTxoptr], outputs := [testOutput] }, witnesses := [] }
      (List.replicate 96 0) 1 testTxid).1 (by decide),
   (claim_C1_witness_protocol
      { tx := { inputs := [testTxoptr], outputs := [testOutput] },
        witnesses := [⟨List.replicate 96 0, 1, testTxid⟩] }
      (List.replicate 96 0) 1 testTxid).2.1 (by decide),
   (claim_C1_witness_protocol
      { tx := { inputs := [testTxoptr], outputs := [testOutput] }, witnesses := [] }
      (List.replicate 96 0) 1 testTxid).2.2 (by decide)⟩

/-- C2: `addInput` rejects any value strictly above `MAX_COIN` with
`CoinOutOfBounds` and no state change; whenever the stored input
(respectively output) values sum past `MAX_COIN`, `getInputTotal`
(respectively `getOutputTotal`) fails with `CoinOutOfBounds`; and in
particular two inputs of `MAX_COIN` and 1 are each accepted by `addInput`
but make `getInputTotal` fail. -/
theorem claim_C2_coin_bounds :
    ∀ (tb : cardano_transaction_builder) (txo : cardano_txoptr) (value : Nat),
      (MAX_COIN < value →
        cardano_transaction_builder_add_input tb txo value =
          (.COIN_OUT_OF_BOUNDS, tb)) ∧
      (MAX_COIN < (tb.inputs.map Prod.snd).sum →
        cardano_transaction_builder_get_input_total tb =
          .error .COIN_OUT_OF_BOUNDS) ∧
      (MAX_COIN < (tb.outputs.map cardano_txoutput.value).sum →
        cardano_transaction_builder_get_output_total tb =
          .error .COIN_OUT_OF_BOUNDS) ∧
      ((cardano_transaction_builder_add_input
          cardano_transaction_builder_new txo MAX_COIN).1 = .SUCCESS ∧
        (cardano_transaction_builder_add_input
          (cardano_transaction_builder_add_input
            cardano_transaction_builder_new txo MAX_COIN).2 txo 1).1 = .SUCCESS ∧
        cardano_transaction_builder_get_input_total
          (cardano_transaction_builder_add_input
            (cardano_transaction_builder_add_input
              cardano_transaction_builder_new txo MAX_COIN).2 txo 1).2 =
          .error .COIN_OUT_OF_BOUNDS) := by
  intro tb txo value
  refine ⟨fun h => ?_, fun h => ?_, fun h => ?_, ?_, ?_, ?_⟩
  · rw [cardano_transaction_builder_add_input, if_pos h]
  · rw [get_input_total_spec, if_pos h]
  · rw [get_output_total_spec, if_pos h]
  · simp [cardano_transaction_builder_add_input, cardano_transaction_builder_new,
      MAX_COIN]
  · simp [cardano_transaction_builder_add_input, cardano_transaction_builder_new,
      MAX_COIN]
  · simp [cardano_transaction_builder_add_input, cardano_transaction_builder_new,
      cardano_transaction_builder_get_input_total, coinSumAux, MAX_COIN]

/-- Witness for C2 at the concrete values of the unit tests: the builder
holding `MAX_COIN` and 1 as inputs and as outputs, and the rejected value
`MAX_COIN + 1`. -/
theorem claim_C2_coin_bounds_witness :
    cardano_transaction_builder_add_input
        { inputs := [(testTxoptr, MAX_COIN), (testTxoptr, 1)],
          outputs := [{ addr := testAddress, value := MAX_COIN },
                      { addr := testAddress, value := 1 }] }
        testTxoptr (MAX_COIN + 1) =
      (.COIN_OUT_OF_BOUNDS,
        { inputs := [(testTxoptr, MAX_COIN), (testTxoptr, 1)],
          outputs := [{ addr := testAddress, value := MAX_COIN },
                      { addr := testAddress, value := 1 }] }) ∧
    cardano_transaction_builder_get_input_total
        { inputs := [(testTxoptr, MAX_COIN), (testTxoptr, 1)],
          outputs := [{ addr := testAddress, value := MAX_COIN },
                      { addr := testAddress, value := 1 }] } =
      .error .COIN_OUT_OF_BOUNDS ∧
    cardano_transaction_builder_get_output_total
        { inputs := [(testTxoptr, MAX_COIN), (testTxoptr, 1)],
          outputs := [{ addr := testAddress, value := MAX_COIN },
                      { addr := testAddress, value := 1 }] } =
      .error .COIN_OUT_OF_BOUNDS :=
  ⟨(claim_C2_coin_bounds _ testTxoptr (MAX_COIN + 1)).1 (by decide),
   (claim_C2_coin_bounds _ testTxoptr (MAX_COIN + 1)).2.1 (by decide),
   (claim_C2_coin_bounds _ testTxoptr (MAX_COIN + 1)).2.2.1 (by decide)⟩

/-- The balance shape stated by the spec: the magnitude is the absolute
difference of the two totals and the sign follows the obvious comparison.
This definition follows the spec's words, to be compared with the
computation of `diffCompare`. -/
def specCoinDiff (i o : Nat) : cardano_transaction_coin_diff_t :=
  { sign :=
      if o < i then .DIFF_POSITIVE
      else if i < o then .DIFF_NEGATIVE
      else .DIFF_ZERO
    value := ((i : Int) - (o : Int)).natAbs }

/-- The three-way comparison produces exactly the spec's sign and absolute
magnitude. -/
theorem diffCompare_eq_specCoinDiff (i o : Nat) :
    diffCompare i o = specCoinDiff i o := by
  unfold diffCompare specCoinDiff
  by_cases h1 : o < i
  · simp only [if_pos h1]
    refine congrArg _ ?_
    omega
  · by_cases h2 : i < o
    · simp only [if_neg h1, if_pos h2]
      refine congrArg _ ?_
      omega
    · simp only [if_neg h1, if_neg h2]
      have : i = o := by omega
      subst this
      simp

/-- C4: on a builder whose totals are in bounds, `balance()` returns the
absolute difference between the input total and the output total plus fee,
with sign `POSITIVE`, `NEGATIVE` or `ZERO` by the obvious comparison, and
`balanceWithoutFees()` is the same computation with the fee term omitted. -/
theorem claim_C4_balance_shape :
    ∀ (alg : FeeAlgorithm) (tb : cardano_transaction_builder) (inTot outTot : Nat),
      cardano_transaction_builder_get_input_total tb = .ok inTot →
      cardano_transaction_builder_get_output_total tb = .ok outTot →
      outTot + cardano_transaction_builder_fee alg tb ≤ MAX_COIN →
      cardano_transaction_builder_balance alg tb =
        .ok (specCoinDiff inTot (outTot + cardano_transaction_builder_fee alg tb)) ∧
      cardano_transaction_builder_balance_without_fees tb =
        .ok (specCoinDiff inTot outTot) := by
  intro alg tb inTot outTot h1 h2 h3
  constructor
  · rw [cardano_transaction_builder_balance, h1, h2]
    simp only [Nat.not_lt.mpr h3, if_neg, diffCompare_eq_specCoinDiff]
    simp [Nat.not_lt.mpr h3]
  · rw [cardano_transaction_builder_balance_without_fees, h1, h2]
    simp [diffCompare_eq_specCoinDiff]

/-- The fee algorithm of the witness: injected linear coefficients with a
size estimate counting inputs and outputs. -/
def testFeeAlgorithm : FeeAlgorithm :=
  { a := 155381, b := 44, sizeEstimate := fun i o => i + o }

/-- Witness for C4 at the one-input builder of the unit tests, value
1000000. -/
theorem claim_C4_balance_shape_witness :
    cardano_transaction_builder_balance testFeeAlgorithm
        { inputs := [(testTxoptr, 1000000)], outputs := [] } =
      .ok (specCoinDiff 1000000
        (0 + cardano_transaction_builder_fee testFeeAlgorithm
          { inputs := [(testTxoptr, 1000000)], outputs := [] })) ∧
    cardano_transaction_builder_balance_without_fees
        { inputs := [(testTxoptr, 1000000)], outputs := [] } =
      .ok (specCoinDiff 1000000 0) :=
  claim_C4_balance_shape testFeeAlgorithm
    { inputs := [(testTxoptr, 1000000)], outputs := [] } 1000000 0
    rfl rfl (by decide)

/-- C5: every 96-byte buffer that satisfies the extended-secret scalar
constraints round-trips through `fromBytes` and `toBytes` byte for byte,
and every buffer violating the constraints is rejected by `fromBytes`
rather than silently fixed up. -/
theorem claim_C5_xprv_roundtrip :
    ∀ bytes : List Nat,
      (xprvScalarValid bytes = true →
        ∃ x, cardano_xprv_from_bytes bytes = some x ∧
          cardano_xprv_to_bytes x = bytes) ∧
      (xprvScalarValid bytes = false → cardano_xprv_from_bytes bytes = none) := by
  intro bytes
  constructor
  · intro h
    refine ⟨{ extendedSecret := bytes.take 64, chainCode := bytes.drop 64 }, ?_, ?_⟩
    · rw [cardano_xprv_from_bytes, if_pos h]
    · simp [cardano_xprv_to_bytes]
  · intro h
    rw [cardano_xprv_from_bytes, if_neg (by simp [h])]

/-- The valid extended-private-key test vector of `test_xprv.c`: all zero
except byte 31, which is 0b01000000. -/
def testXprvBytes : List Nat := List.replicate 31 0 ++ 64 :: List.replicate 64 0

/-- Witness for C5 at the test vectors of `test_xprv.c`: the valid buffer
round-trips and the all-zero buffer is rejected. -/
theorem claim_C5_xprv_roundtrip_witness :
    (∃ x, cardano_xprv_from_bytes testXprvBytes = some x ∧
      cardano_xprv_to_bytes x = testXprvBytes) ∧
    cardano_xprv_from_bytes (List.replicate 96 0) = none :=
  ⟨(claim_C5_xprv_roundtrip testXprvBytes).1 (by decide),
   (claim_C5_xprv_roundtrip (List.replicate 96 0)).2 (by decide)⟩

/-- C6 counterexample: a 12-byte entropy is outside the claimed set of
accepted lengths, yet `walletNew` succeeds on it, as the repository's test
`valid_entropy_size_returns_success` asserts. -/
theorem claim_C6_counterexample :
    (cardano_wallet_new (List.replicate 12 0) [97, 98, 99]).isSome = true ∧
    ¬(12 = 16 ∨ 12 = 20 ∨ 12 = 24 ∨ 12 = 28 ∨ 12 = 32) := by
  decide

/-- C6 as amended: `walletNew` succeeds exactly when the entropy length is
one of 12, 16, 20, 24, 28 or 32 bytes, for any password; any other length
fails fast. -/
theorem claim_C6_wallet_entropy_sizes :
    ∀ entropy password : List Nat,
      (cardano_wallet_new entropy password).isSome = true ↔
        (entropy.length = 12 ∨ entropy.length = 16 ∨ entropy.length = 20 ∨
         entropy.length = 24 ∨ entropy.length = 28 ∨ entropy.length = 32) := by
  intro entropy password
  unfold cardano_wallet_new
  split <;> simp_all

/-- C7 counterexample: a word count of 9 is outside the claimed set, yet
`entropyFromRandom` succeeds on it and draws the 12 entropy bytes of the
9-word variant, as the header documents. -/
theorem claim_C7_counterexample :
    cardano_entropy_from_random 9 (fun _ => 1) =
      .ok [1, 1, 1, 1, 1, 1, 1, 1, 1, 1, 1, 1] ∧
    ¬(9 = 12 ∨ 9 = 15 ∨ 9 = 18 ∨ 9 = 21 ∨ 9 = 24) := by
  refine ⟨?_, by decide⟩
  rfl

/-- C7 as amended: `entropyFromRandom` succeeds exactly on the word counts 9,
12, 15, 18, 21 and 24, drawing respectively 12, 16, 20, 24, 28 and 32 bytes
from the injected random source; any other word count fails with
`InvalidWordCount`. -/
theorem claim_C7_entropy_from_random :
    ∀ (n : Nat) (gen : Nat → Nat),
      (n = 9 → cardano_entropy_from_random n gen = .ok ((List.range 12).map gen)) ∧
      (n = 12 → cardano_entropy_from_random n gen = .ok ((List.range 16).map gen)) ∧
      (n = 15 → cardano_entropy_from_random n gen = .ok ((List.range 20).map gen)) ∧
      (n = 18 → cardano_entropy_from_random n gen = .ok ((List.range 24).map gen)) ∧
      (n = 21 → cardano_entropy_from_random n gen = .ok ((List.range 28).map gen)) ∧
      (n = 24 → cardano_entropy_from_random n gen = .ok ((List.range 32).map gen)) ∧
      (¬(n = 9 ∨ n = 12 ∨ n = 15 ∨ n = 18 ∨ n = 21 ∨ n = 24) →
        cardano_entropy_from_random n gen = .error .INVALID_WORD_COUNT) := by
  intro n gen
  refine ⟨fun h => ?_, fun h => ?_, fun h => ?_, fun h => ?_, fun h => ?_,
    fun h => ?_, fun h => ?_⟩
  · subst h; rfl
  · subst h; rfl
  · subst h; rfl
  · subst h; rfl
  · subst h; rfl
  · subst h; rfl
  · push_neg at h
    obtain ⟨h9, h12, h15, h18, h21, h24⟩ := h
    rw [cardano_entropy_from_random, wordCountToEntropyBytes]
    simp [h9, h12, h15, h18, h21, h24]

/-- Witness for C7 at the word counts of the unit tests: 12 words draw 16
bytes from the injected source, 13 words fail with `InvalidWordCount`. -/
theorem claim_C7_entropy_from_random_witness :
    cardano_entropy_from_random 12 (fun _ => 1) =
      .ok ((List.range 16).map (fun _ => 1)) ∧
    cardano_entropy_from_random 13 (fun _ => 1) =
      .error .INVALID_WORD_COUNT :=
  ⟨(claim_C7_entropy_from_random 12 (fun _ => 1)).2.1 rfl,
   (claim_C7_entropy_from_random 13 (fun _ => 1)).2.2.2.2.2.2 (by decide)⟩

/-- C9: for the entropy bytes 0..15 with password bytes of the string
consisting of the characters a, b and c, `walletNew` succeeds; creating the
account at alias Test and index 0 succeeds; and generating one external
address from index 0 yields exactly one address, which the validity check
accepts with the C convention of returning 0 for a valid address. -/
theorem claim_C9_empty_wallet_scenario :
    ∃ w, cardano_wallet_new (List.range 16) [97, 98, 99] = some w ∧
      (cardano_account_generate_addresses
        (cardano_account_create w "Test" 0) false 0 1).length = 1 ∧
      ∀ a ∈ cardano_account_generate_addresses
          (cardano_account_create w "Test" 0) false 0 1,
        cardano_address_is_valid (cardano_address_export_base58 a) = 0 := by
  refine ⟨{ entropy := List.range 16, password := [97, 98, 99] }, rfl, rfl, ?_⟩
  intro a _
  rfl

/-- Resolving a word list fails as soon as some word is out of the
dictionary. -/
theorem lookupAll_eq_none (lookup : String → Option Nat) :
    ∀ ws : List String, (∃ w ∈ ws, lookup w = none) →
      lookupAll lookup ws = none := by
  intro ws
  induction ws with
  | nil =>
    rintro ⟨w, hw, _⟩
    cases hw
  | cons w ws ih =>
    rintro ⟨u, hu, hnone⟩
    rcases List.mem_cons.mp hu with rfl | hmem
    · simp [lookupAll, hnone]
    · rw [lookupAll]
      cases hl : lookup w with
      | none => rfl
      | some i => rw [ih ⟨u, hmem, hnone⟩]

/-- C3: `entropyFromMnemonic` answers `InvalidMnemonic` whenever some word is
out of the dictionary; whenever all words resolve (and the word count admits
an entropy split) but the embedded checksum bits differ from the hash of the
payload bits it answers the distinct error `InvalidChecksum`; and it never
answers `InvalidMnemonic` on a fully resolving word list of admissible
length, so the two error kinds are not conflated. -/
theorem claim_C3_mnemonic_error_kinds :
    ∀ (lookup : String → Option Nat) (hashChecksum : List Bool → Nat → Nat)
      (words : List String),
      ((∃ w ∈ words, lookup w = none) →
        cardano_entropy_from_english_mnemonics lookup hashChecksum words =
          .error .INVALID_MNEMONIC) ∧
      (∀ idxs nBytes, lookupAll lookup words = some idxs →
        wordCountToEntropyBytes words.length = some nBytes →
        bitsToNat ((idxs.map (natToBits 11)).flatten.drop (8 * nBytes)) ≠
          hashChecksum ((idxs.map (natToBits 11)).flatten.take (8 * nBytes))
            ((idxs.map (natToBits 11)).flatten.drop (8 * nBytes)).length →
        cardano_entropy_from_english_mnemonics lookup hashChecksum words =
          .error .INVALID_CHECKSUM) ∧
      (∀ idxs, lookupAll lookup words = some idxs →
        (wordCountToEntropyBytes words.length).isSome = true →
        cardano_entropy_from_english_mnemonics lookup hashChecksum words ≠
          .error .INVALID_MNEMONIC) := by
  intro lookup hashChecksum words
  refine ⟨fun h => ?_, fun idxs nBytes h1 h2 h3 => ?_, fun idxs h1 h2 => ?_⟩
  · rw [cardano_entropy_from_english_mnemonics, lookupAll_eq_none lookup words h]
  · rw [cardano_entropy_from_english_mnemonics, h1, h2]
    simp only []
    rw [if_neg h3]
  · rcases Option.isSome_iff_exists.mp h2 with ⟨nBytes, hnB⟩
    rw [cardano_entropy_from_english_mnemonics, h1, hnB]
    simp only []
    split <;> simp

/-- The dictionary of the witness: only the word abandon, at index 0. -/
def testLookup : String → Option Nat :=
  fun w => if w = "abandon" then some 0 else none

/-- The checksum collaborator of the witness: constantly 1, so the all-zero
payload of twelve abandon words never matches. -/
def testHashChecksum : List Bool → Nat → Nat :=
  fun _ _ => 1

/-- Witness for C3: a word list containing an out-of-dictionary word yields
`InvalidMnemonic`, and the twelve-word list of abandon words resolves fully
but fails the constant-1 checksum with `InvalidChecksum`. -/
theorem claim_C3_mnemonic_error_kinds_witness :
    cardano_entropy_from_english_mnemonics testLookup testHashChecksum
        ["notaword"] = .error .INVALID_MNEMONIC ∧
    cardano_entropy_from_english_mnemonics testLookup testHashChecksum
        (List.replicate 12 "abandon") = .error .INVALID_CHECKSUM :=
  ⟨(claim_C3_mnemonic_error_kinds testLookup testHashChecksum ["notaword"]).1
      ⟨"notaword", by decide, by decide⟩,
   (claim_C3_mnemonic_error_kinds testLookup testHashChecksum
      (List.replicate 12 "abandon")).2.1 (List.replicate 12 0) 16
      (by decide) (by decide) (by decide)⟩
